import Mathlib

/-!
Verification development for the geo-ntfp pipeline.

The repository is a four-stage geospatial batch pipeline
(ntfp_functions.py, ntfp_tasks.py, run_ntfp.py, price_preprocess.py).
All geometric and raster heavy lifting is delegated to external libraries
(hazelbean, pygeoprocessing, rasterstats, geopandas); the code owned by the
repository is the per-pixel forest-mask rule, the tabular
aggregation/join/valuation logic of area_by_country, the
"output file already exists, skip" caching guard of every stage, and the
task wiring of run_ntfp.py.

This file shallowly embeds exactly that owned logic:
  * forest_mask_op            — ntfp_functions.py line 34
  * the area_by_country data flow — ntfp_functions.py lines 220-346,
    with zonal_stats (an external collaborator) abstracted as an input
    list of per-polygon statistics, exactly in the shape the code
    consumes at lines 260-268;
  * a filesystem model (a list of existing paths) for the caching guard
    of the seven stage functions;
  * the task-name wiring of run_ntfp.py / ntfp_tasks.py.
-/

set_option linter.unusedVariables false

namespace GeoNtfp

/-! ## Forest mask stage (ntfp_functions.py lines 17-50) -/

/-- Pixel rule of create_forest_mask, line 34:
np.where((lulc_array >= 50) & (lulc_array <= 90), 1, 0).astype(np.uint8).
There is no special path for nodata input pixels: every input value goes
through the same comparison. -/
def forest_mask_op (v : Int) : Nat :=
  if 50 ≤ v ∧ v ≤ 90 then 1 else 0

/-- Blockwise application of the pixel rule; raster_calculator_hb
(line 40) applies forest_mask_op to every pixel of each block. -/
def forest_mask_block (block : List Int) : List Nat :=
  block.map forest_mask_op

/-- nodata value written into the output forest raster, line 27. -/
def create_forest_mask_nodata : Nat := 0

/-- Input nodata fallback used by the pipeline when the raster carries no
nodata metadata (ntfp_functions.py line 66); the ESA LULC convention used
by the pipeline is nodata = 0. -/
def lulc_default_nodata : Int := 0

/-! ## Tabular cells (pandas view of the value CSV) -/

/-- A tabular cell as pandas holds it after read_csv: a numeric value, a
non-numeric string, or a missing value (NaN). Numeric-looking text is
already parsed to a number by the CSV reader, so Cell.str stands for
entries that are not numeric. -/
inductive Cell where
  | num (q : ℚ)
  | str (s : String)
  | na
deriving DecidableEq, Repr

/-- pd.to_numeric with errors coerce (ntfp_functions.py lines 305-307):
numeric cells pass through, any non-numeric or missing entry becomes NaN
(modelled as none). The function is total — coercion never raises. -/
def to_numeric_coerce : Cell → Option ℚ
  | Cell.num q => some q
  | Cell.str _ => none
  | Cell.na => none

/-- Column access in a row stored as an association list of
(column name, cell) pairs. -/
def get_col (cells : List (String × Cell)) (c : String) : Cell :=
  match cells.find? (fun kv => kv.1 == c) with
  | some kv => kv.2
  | none => Cell.na

/-! ## Data model of area_by_country (ntfp_functions.py lines 212-346) -/

/-- The join column, hard-coded at lines 242-248, 268, 275, 318. -/
def iso3_col : String := "iso3_r250_label"

/-- The year column of the value table used for valuation, hard-coded at
line 306. -/
def price_year_column : String := "2019"

/-- Result of zonal_stats for one country polygon (lines 260-265):
the sum of the binary forest raster over the polygon (None when the
polygon covers only nodata pixels, as rasterstats returns) and the count
of valid pixels. -/
structure ZonalStat where
  zsum : Option Nat
  zcount : Nat
deriving DecidableEq, Repr

/-- One row of df_stats after line 268: the per-polygon zonal statistics
with the polygon's country identifier attached positionally. -/
structure StatRow where
  iso3_r250_label : String
  zsum : Option Nat
  zcount : Nat
deriving DecidableEq, Repr

/-- Lines 267-268: build df_stats from the zonal_stats output, assigning
iso3_r250_label from the country GeoDataFrame by position. -/
def df_stats_make (gdf_iso3 : List String) (stats_list : List ZonalStat) : List StatRow :=
  List.zipWith
    (fun k s => { iso3_r250_label := k, zsum := s.zsum, zcount := s.zcount })
    gdf_iso3 stats_list

/-- The pandas groupby-sum over the sum column for one key (lines
273-280): the total of the per-polygon zonal sums whose label equals k,
NaN entries skipped (pandas sum semantics; an all-NaN group sums to 0). -/
def country_pixel_sum (rows : List StatRow) (k : String) : Nat :=
  ((rows.filter (fun r => r.iso3_r250_label == k)).map (fun r => r.zsum.getD 0)).sum

/-- The pandas groupby-sum over the count column for one key (lines
273-280). -/
def country_count_sum (rows : List StatRow) (k : String) : Nat :=
  ((rows.filter (fun r => r.iso3_r250_label == k)).map (fun r => r.zcount)).sum

/-- One row of df_stats_agg (lines 273-283): a unique country identifier
with its aggregated sum and count. -/
structure AggRow where
  iso3_r250_label : String
  sum_agg : Nat
  count_agg : Nat
deriving DecidableEq, Repr

/-- Lines 273-283: groupby iso3_r250_label, aggregating sum and count; one
output row per unique identifier. Row order within the result is
immaterial to every property proved below. -/
def df_stats_agg (rows : List StatRow) : List AggRow :=
  ((rows.map (fun r => r.iso3_r250_label)).dedup).map
    (fun k =>
      { iso3_r250_label := k
        sum_agg := country_pixel_sum rows k
        count_agg := country_count_sum rows k })

/-- Line 288-289: pixel_area_m2 = abs(px * py); pixel_area_ha = m2 / 10000. -/
def pixel_area_ha (pixel_size : ℚ × ℚ) : ℚ :=
  |pixel_size.1 * pixel_size.2| / 10000

/-- One row of df_stats after the area computation (lines 287-292),
restricted to the columns carried into the merge (line 316). -/
structure AreaRow where
  iso3_r250_label : String
  forest_pixel_count : Nat
  forest_area_ha : ℚ
deriving DecidableEq, Repr

/-- Lines 291-292: forest_pixel_count is the aggregated zonal sum
(fillna(0).astype(int) — the aggregated sum is already a whole number of
binary-mask pixels) and forest_area_ha = forest_pixel_count * pixel_area_ha. -/
def with_area (pixel_size : ℚ × ℚ) (aggs : List AggRow) : List AreaRow :=
  aggs.map (fun g =>
    { iso3_r250_label := g.iso3_r250_label
      forest_pixel_count := g.sum_agg
      forest_area_ha := (g.sum_agg : ℚ) * pixel_area_ha pixel_size })

/-- One row of the raw value table as read from the CSV: identifier
columns plus the per-year columns. iso3_r250_label may be missing (NaN). -/
structure PriceRow where
  iso3_r250_id : String
  iso3_r250_label : Option String
  iso3_r250_name : String
  years : List (String × Cell)
deriving DecidableEq, Repr

/-- One row of df_price_clean (lines 301-307). -/
structure CleanPriceRow where
  iso3_r250_id : String
  iso3_r250_label : String
  iso3_r250_name : String
  value_per_hectare : Option ℚ
deriving DecidableEq, Repr

/-- Lines 301-307: keep the rows whose iso3_r250_label is not NaN, then
set value_per_hectare = to_numeric(row[2019 column], coercing non-numeric
entries to NaN). -/
def df_price_clean (rows : List PriceRow) : List CleanPriceRow :=
  (rows.filter (fun p => p.iso3_r250_label.isSome)).map (fun p =>
    { iso3_r250_id := p.iso3_r250_id
      iso3_r250_label := p.iso3_r250_label.getD ""
      iso3_r250_name := p.iso3_r250_name
      value_per_hectare := to_numeric_coerce (get_col p.years price_year_column) })

/-- One row of df_final (lines 315-344): the merged columns plus the
computed ntfp column (none models NaN before/instead of a number). -/
structure MergedRow where
  iso3_r250_label : String
  forest_area_ha : ℚ
  iso3_r250_id : String
  iso3_r250_name : String
  value_per_hectare : Option ℚ
  ntfp : Option ℚ
deriving DecidableEq, Repr

/-- Lines 315-320: pandas inner merge on iso3_r250_label; each left row is
paired with every right row carrying an equal key, in left order; keys
present on only one side produce no row. The ntfp column does not exist
yet at this point (set to none). -/
def df_merged (areas : List AreaRow) (prices : List CleanPriceRow) : List MergedRow :=
  areas.flatMap (fun a =>
    (prices.filter (fun p => p.iso3_r250_label == a.iso3_r250_label)).map (fun p =>
      { iso3_r250_label := a.iso3_r250_label
        forest_area_ha := a.forest_area_ha
        iso3_r250_id := p.iso3_r250_id
        iso3_r250_name := p.iso3_r250_name
        value_per_hectare := p.value_per_hectare
        ntfp := none }))

/-- Lines 325-327: ntfp = forest_area_ha * value_per_hectare; a NaN
value_per_hectare propagates to a NaN ntfp. -/
def with_ntfp (rows : List MergedRow) : List MergedRow :=
  rows.map (fun r =>
    { r with ntfp := Option.map (fun v => r.forest_area_ha * v) r.value_per_hectare })

/-- The row produced for an area row and a matching clean price row by the
merge of lines 315-320 followed by the value computation of lines 325-327;
used to state membership characterizations of the data flow. -/
def mk_valued (a : AreaRow) (p : CleanPriceRow) : MergedRow :=
  { iso3_r250_label := a.iso3_r250_label
    forest_area_ha := a.forest_area_ha
    iso3_r250_id := p.iso3_r250_id
    iso3_r250_name := p.iso3_r250_name
    value_per_hectare := p.value_per_hectare
    ntfp := Option.map (fun v => a.forest_area_ha * v) p.value_per_hectare }

/-- Lines 329-334: keep exactly the rows whose ntfp is not NaN (the
zero-value filter on line 332 is commented out in the source). -/
def df_filtered (rows : List MergedRow) : List MergedRow :=
  rows.filter (fun r => r.ntfp.isSome)

/-- Lines 341-344: the column selection (and order) of the exported
table. -/
def final_columns : List String :=
  ["iso3_r250_id", "iso3_r250_label", "iso3_r250_name",
   "forest_area_ha", "value_per_hectare", "ntfp"]

/-- Modelled from the spec (section 6): the column set the spec claims for
the final tabular file. Used only to compare the claimed header with the
one the code produces. -/
def spec_claimed_columns : List String :=
  ["country_id", "country_label", "country_name",
   "forest_area_ha", "value_per_hectare", "ntfp_value"]

/-- The table written by to_csv at line 346: header plus rows. -/
structure FinalTable where
  header : List String
  rows : List MergedRow
deriving DecidableEq, Repr

/-- The full tabular data flow of area_by_country after validation
(lines 267-344), as a composition of the step functions above. -/
def area_by_country_table (gdf_iso3 : List String) (stats_list : List ZonalStat)
    (price_rows : List PriceRow) (pixel_size : ℚ × ℚ) : List MergedRow :=
  df_filtered (with_ntfp (df_merged
    (with_area pixel_size (df_stats_agg (df_stats_make gdf_iso3 stats_list)))
    (df_price_clean price_rows)))

/-- Fatal errors raised by area_by_country: a required column absent from
one of the two tabular inputs (lines 241-249). The constructor records
which input is missing the column, the expected column, and the columns
actually available in that input — the content of the ValueError message. -/
inductive StageError where
  | missingColumn (table : String) (expected : String) (available : List String)
deriving DecidableEq, Repr

/-- area_by_country (lines 212-346) with the external collaborators
abstracted: the country layer is its column list plus the per-polygon
identifiers, zonal_stats is the per-polygon statistics list it returns,
the value CSV is its column list plus its rows, and the raster
contributes its pixel size. Validation (lines 241-249) precedes all
computation; the vector input is checked first. -/
def area_by_country (gdf_columns : List String) (gdf_iso3 : List String)
    (stats_list : List ZonalStat) (price_columns : List String)
    (price_rows : List PriceRow) (pixel_size : ℚ × ℚ) :
    Except StageError FinalTable :=
  if iso3_col ∈ gdf_columns then
    if iso3_col ∈ price_columns then
      Except.ok { header := final_columns
                  rows := area_by_country_table gdf_iso3 stats_list price_rows pixel_size }
    else
      Except.error (StageError.missingColumn ("CSV") iso3_col price_columns)
  else
    Except.error (StageError.missingColumn ("Vector") iso3_col gdf_columns)

/-! ## Filesystem model of the per-stage caching guard

Every stage function of ntfp_functions.py begins with
"if os.path.exists(output_path): L.info(...); return" and otherwise ends by
writing its output file. The filesystem is modelled as the list of
existing paths; each stage returns the new filesystem together with the
log lines of the branch taken. The bodies delegate all computation to the
external libraries (their data flow is modelled by the pure functions
above), so here a successful body is recorded as the creation of the
output path; informational log lines between the steps of a body are
elided, the guard-branch message — the one the claims are about — is
modelled verbatim. -/

/-- create_forest_mask, lines 23-50. -/
def create_forest_mask_io (fs : List String)
    (input_lulc_path output_forest_path : String) : List String × List String :=
  if output_forest_path ∈ fs then
    (fs, ["Forest mask already exists at " ++ output_forest_path])
  else
    (output_forest_path :: fs, ["Forest mask created at " ++ output_forest_path])

/-- reproject_raster, lines 53-102 (the gdal_edit.py subprocess edits
nodata metadata in place and creates no path). -/
def reproject_raster_io (fs : List String)
    (in_raster_path out_raster_path : String) : List String × List String :=
  if out_raster_path ∈ fs then
    (fs, ["Reprojected raster already exists at " ++ out_raster_path])
  else
    (out_raster_path :: fs, ["Reprojected raster saved to " ++ out_raster_path])

/-- reproject_vector, lines 105-119. -/
def reproject_vector_io (fs : List String)
    (in_vector_path out_vector_path : String) : List String × List String :=
  if out_vector_path ∈ fs then
    (fs, ["Reprojected vector already exists at " ++ out_vector_path])
  else
    (out_vector_path :: fs, ["Reprojected vector to " ++ out_vector_path])

/-- buffer_vector, lines 122-138. -/
def buffer_vector_io (fs : List String)
    (in_vector_path out_vector_path : String) (buffer_distance_m : ℚ) :
    List String × List String :=
  if out_vector_path ∈ fs then
    (fs, ["Buffered and dissolved vector already exists at " ++ out_vector_path])
  else
    (out_vector_path :: fs, ["Buffered and dissolved vector saved to " ++ out_vector_path])

/-- union_buffers, lines 141-164. -/
def union_buffers_io (fs : List String)
    (buffer_paths : List String) (out_union_path : String) : List String × List String :=
  if out_union_path ∈ fs then
    (fs, ["Union of buffers already exists at " ++ out_union_path])
  else
    (out_union_path :: fs, ["Unioned buffers saved to " ++ out_union_path])

/-- mask_raster_by_polygon, lines 167-209: the body creates a temporary
mask raster (line 179), writes the output, then removes the temporary
file if it exists (lines 206-207). -/
def mask_raster_by_polygon_io (fs : List String)
    (in_raster_path in_polygon_path out_raster_path : String) :
    List String × List String :=
  if out_raster_path ∈ fs then
    (fs, ["Masked raster already exists at " ++ out_raster_path])
  else
    let temp_mask_path := out_raster_path.replace (".tif") ("_temp_mask.tif")
    let fs1 := out_raster_path :: temp_mask_path :: fs
    let fs2 := if temp_mask_path ∈ fs1 then fs1.erase temp_mask_path else fs1
    (fs2, ["Masked raster saved to " ++ out_raster_path])

/-- area_by_country, lines 220-222 (guard), 241-249 (validation, which
raises before anything is written) and 346 (the only write). -/
def area_by_country_io (fs : List String) (out_csv_path : String)
    (gdf_columns gdf_iso3 : List String) (stats_list : List ZonalStat)
    (price_columns : List String) (price_rows : List PriceRow)
    (pixel_size : ℚ × ℚ) : List String × List String :=
  if out_csv_path ∈ fs then
    (fs, ["Output already exists: " ++ out_csv_path])
  else
    match area_by_country gdf_columns gdf_iso3 stats_list price_columns
        price_rows pixel_size with
    | Except.ok _ => (out_csv_path :: fs, ["Results saved to: " ++ out_csv_path])
    | Except.error _ => (fs, [])

/-! ## run_ntfp.py and ntfp_tasks.py wiring -/

/-- The stage task functions actually defined in ntfp_tasks.py
(lines 7, 18, 73, 89). -/
def ntfp_tasks_defined : List String :=
  ["task_create_forest_mask", "task_reproject_inputs",
   "task_buffer_and_union", "task_mask_and_calculate_stats"]

/-- The task attributes referenced by build_task_tree in run_ntfp.py
(lines 11-20), in the order they are added. -/
def build_task_tree_refs : List String :=
  ["task_preprocess_forest_data", "task_reproject_inputs",
   "task_buffer_and_union", "task_calculate_ntfp_value"]

/-- The string the main guard of run_ntfp.py compares __name__ against
(line 23). -/
def run_ntfp_main_guard : String := "main"

/-- Python sets __name__ to this value in a script executed directly
(Python language semantics, not repository code). -/
def python_executed_module_name : String := "__main__"

/-- The stages run_ntfp.py schedules when loaded with the given
__name__: the main block (lines 23-52) builds and executes the task tree
only when the guard matches. -/
def run_ntfp_scheduled_tasks (module_name : String) : List String :=
  if module_name == run_ntfp_main_guard then build_task_tree_refs else []

/-! ## Concrete sample inputs (used by witnesses and counterexamples) -/

/-- Columns of a well-formed reprojected country layer. -/
def sample_gdf_columns : List String := ["iso3_r250_label", "geometry"]

/-- Country identifiers of five polygons: USA twice (non-contiguous
territory), CAN, MEX, BRA. -/
def sample_gdf_iso3 : List String := ["USA", "USA", "CAN", "MEX", "BRA"]

/-- Per-polygon zonal results: the two USA polygons hold 100 and 150
forest pixels, the CAN polygon covers only nodata (sum None), MEX holds
10, BRA holds 7. -/
def sample_stats : List ZonalStat :=
  [{ zsum := some 100, zcount := 120 }, { zsum := some 150, zcount := 180 },
   { zsum := none, zcount := 0 }, { zsum := some 10, zcount := 40 },
   { zsum := some 7, zcount := 9 }]

/-- Columns of a well-formed value CSV. -/
def sample_price_columns : List String :=
  ["iso3_r250_id", "iso3_r250_label", "iso3_r250_name", "2019"]

/-- Value rows: USA priced 1000/ha, CAN with a non-numeric 2019 cell,
MEX priced 0/ha, FRA priced but with no polygon, and one row with a
missing identifier. -/
def sample_price_rows : List PriceRow :=
  [{ iso3_r250_id := "840", iso3_r250_label := some "USA",
     iso3_r250_name := "United States", years := [("2019", Cell.num 1000)] },
   { iso3_r250_id := "124", iso3_r250_label := some "CAN",
     iso3_r250_name := "Canada", years := [("2019", Cell.str "no data")] },
   { iso3_r250_id := "484", iso3_r250_label := some "MEX",
     iso3_r250_name := "Mexico", years := [("2019", Cell.num 0)] },
   { iso3_r250_id := "250", iso3_r250_label := some "FRA",
     iso3_r250_name := "France", years := [("2019", Cell.num 5)] },
   { iso3_r250_id := "0", iso3_r250_label := none,
     iso3_r250_name := "Unknown", years := [("2019", Cell.num 7)] }]

/-- 300 m by 300 m pixels in Mollweide (ntfp_tasks.py line 47); one
pixel is 9 ha. -/
def sample_pixel_size : ℚ × ℚ := (300, -300)

instance {ε α : Type} [DecidableEq ε] [DecidableEq α] : DecidableEq (Except ε α) :=
  fun x y =>
    match x, y with
    | Except.ok a, Except.ok b =>
        if h : a = b then isTrue (by rw [h])
        else isFalse (fun hc => h (Except.ok.inj hc))
    | Except.error a, Except.error b =>
        if h : a = b then isTrue (by rw [h])
        else isFalse (fun hc => h (Except.error.inj hc))
    | Except.ok a, Except.error b => isFalse (fun hc => Except.noConfusion hc)
    | Except.error a, Except.ok b => isFalse (fun hc => Except.noConfusion hc)

/-- The USA output row on the sample inputs: 250 aggregated forest pixels
times 9 ha per pixel gives 2250 ha, valued at 1000 per ha. -/
def sample_usa_row : MergedRow :=
  { iso3_r250_label := "USA", forest_area_ha := 2250, iso3_r250_id := "840",
    iso3_r250_name := "United States", value_per_hectare := some 1000,
    ntfp := some 2250000 }

/-- The CAN intermediate row on the sample inputs: all pixels nodata, so
0 ha, and a non-numeric price, so NaN value and NaN ntfp — dropped by the
final filter. -/
def sample_can_row : MergedRow :=
  { iso3_r250_label := "CAN", forest_area_ha := 0, iso3_r250_id := "124",
    iso3_r250_name := "Canada", value_per_hectare := none, ntfp := none }

/-- The MEX output row on the sample inputs: 90 ha at rate 0, so ntfp is
exactly 0 — retained by the final filter. -/
def sample_mex_row : MergedRow :=
  { iso3_r250_label := "MEX", forest_area_ha := 90, iso3_r250_id := "484",
    iso3_r250_name := "Mexico", value_per_hectare := some 0, ntfp := some 0 }

/-- The table area_by_country produces on the sample inputs: USA and MEX
only; CAN (non-numeric price), BRA (no price row) and FRA (no polygon)
are absent. -/
def sample_table : FinalTable :=
  { header := final_columns
    rows := [sample_usa_row, sample_mex_row] }

/-- The cleaned price row for USA on the sample inputs. -/
def sample_clean_usa : CleanPriceRow :=
  { iso3_r250_id := "840", iso3_r250_label := "USA",
    iso3_r250_name := "United States", value_per_hectare := some 1000 }

/-- The intermediate merged-and-valued rows (before the final filter) on
the sample inputs. -/
def sample_valued_rows : List MergedRow :=
  with_ntfp (df_merged
    (with_area sample_pixel_size (df_stats_agg (df_stats_make sample_gdf_iso3 sample_stats)))
    (df_price_clean sample_price_rows))

/-- Evaluation of area_by_country on the sample inputs; shared by the
witnesses below. Rational arithmetic is irreducible in this toolchain, so
evaluation goes through simp and norm_num rather than decide. -/
theorem sample_run_eval :
    area_by_country sample_gdf_columns sample_gdf_iso3 sample_stats
      sample_price_columns sample_price_rows sample_pixel_size
      = Except.ok sample_table := by
  norm_num +decide [area_by_country, area_by_country_table, df_stats_make,
    df_stats_agg, df_price_clean, df_merged, with_ntfp, with_area, df_filtered,
    country_pixel_sum, country_count_sum, pixel_area_ha, get_col,
    to_numeric_coerce, iso3_col, price_year_column, final_columns,
    sample_gdf_columns, sample_gdf_iso3, sample_stats, sample_price_columns,
    sample_price_rows, sample_pixel_size, sample_table,
    sample_usa_row, sample_mex_row,
    List.dedup_cons_of_mem, List.dedup_cons_of_not_mem]

/-- Evaluation of the intermediate merged-and-valued rows on the sample
inputs; shared by the witnesses below. -/
theorem sample_valued_eval :
    sample_valued_rows = [sample_usa_row, sample_can_row, sample_mex_row] := by
  norm_num +decide [sample_valued_rows, df_stats_make, df_stats_agg,
    df_price_clean, df_merged, with_ntfp, with_area, country_pixel_sum,
    country_count_sum, pixel_area_ha, get_col, to_numeric_coerce,
    price_year_column, sample_gdf_iso3, sample_stats, sample_price_rows,
    sample_pixel_size, sample_usa_row, sample_can_row, sample_mex_row,
    List.dedup_cons_of_mem, List.dedup_cons_of_not_mem]

/-! ## Helper lemmas about the data flow -/

/-- A successful area_by_country run emits the final column header and the
rows of the tabular data flow. -/
theorem area_by_country_ok_parts {gdf_columns gdf_iso3 : List String}
    {stats_list : List ZonalStat} {price_columns : List String}
    {price_rows : List PriceRow} {pixel_size : ℚ × ℚ} {t : FinalTable}
    (h : area_by_country gdf_columns gdf_iso3 stats_list price_columns
        price_rows pixel_size = Except.ok t) :
    t.header = final_columns ∧
      t.rows = area_by_country_table gdf_iso3 stats_list price_rows pixel_size := by
  unfold area_by_country at h
  by_cases h1 : iso3_col ∈ gdf_columns
  · by_cases h2 : iso3_col ∈ price_columns
    · rw [if_pos h1, if_pos h2] at h
      injection h with h3
      rw [← h3]
      exact ⟨rfl, rfl⟩
    · rw [if_pos h1, if_neg h2] at h
      exact Except.noConfusion h
  · rw [if_neg h1] at h
    exact Except.noConfusion h

/-- Membership in the merged-and-valued rows (lines 315-327): exactly the
pairs of an area row and a clean price row with equal identifiers. -/
theorem mem_valued_iff {areas : List AreaRow} {prices : List CleanPriceRow}
    {r : MergedRow} :
    r ∈ with_ntfp (df_merged areas prices) ↔
      ∃ a ∈ areas, ∃ p ∈ prices,
        p.iso3_r250_label = a.iso3_r250_label ∧ r = mk_valued a p := by
  unfold with_ntfp df_merged
  simp only [List.mem_map, List.mem_flatMap, List.mem_filter, beq_iff_eq]
  constructor
  · rintro ⟨m, ⟨a, ha, p, ⟨hp, heq⟩, rfl⟩, rfl⟩
    exact ⟨a, ha, p, hp, heq, rfl⟩
  · rintro ⟨a, ha, p, hp, heq, rfl⟩
    exact ⟨_, ⟨a, ha, p, ⟨hp, heq⟩, rfl⟩, rfl⟩

/-- Membership in with_area (lines 287-292). -/
theorem mem_with_area_iff {pixel_size : ℚ × ℚ} {aggs : List AggRow} {a : AreaRow} :
    a ∈ with_area pixel_size aggs ↔
      ∃ g ∈ aggs,
        a = { iso3_r250_label := g.iso3_r250_label
              forest_pixel_count := g.sum_agg
              forest_area_ha := (g.sum_agg : ℚ) * pixel_area_ha pixel_size } := by
  unfold with_area
  simp only [List.mem_map]
  constructor
  · rintro ⟨g, hg, rfl⟩
    exact ⟨g, hg, rfl⟩
  · rintro ⟨g, hg, rfl⟩
    exact ⟨g, hg, rfl⟩

/-- Membership in df_stats_agg (lines 273-283). -/
theorem mem_df_stats_agg_iff {rows : List StatRow} {g : AggRow} :
    g ∈ df_stats_agg rows ↔
      ∃ k ∈ (rows.map (fun r => r.iso3_r250_label)).dedup,
        g = { iso3_r250_label := k
              sum_agg := country_pixel_sum rows k
              count_agg := country_count_sum rows k } := by
  unfold df_stats_agg
  simp only [List.mem_map]
  constructor
  · rintro ⟨k, hk, rfl⟩
    exact ⟨k, hk, rfl⟩
  · rintro ⟨k, hk, rfl⟩
    exact ⟨k, hk, rfl⟩

/-- Membership in df_price_clean (lines 301-307). -/
theorem mem_df_price_clean_iff {rows : List PriceRow} {c : CleanPriceRow} :
    c ∈ df_price_clean rows ↔
      ∃ p ∈ rows, p.iso3_r250_label = some c.iso3_r250_label ∧
        c = { iso3_r250_id := p.iso3_r250_id
              iso3_r250_label := p.iso3_r250_label.getD ""
              iso3_r250_name := p.iso3_r250_name
              value_per_hectare :=
                to_numeric_coerce (get_col p.years price_year_column) } := by
  unfold df_price_clean
  simp only [List.mem_map, List.mem_filter]
  constructor
  · rintro ⟨p, ⟨hp, hsome⟩, rfl⟩
    rcases Option.isSome_iff_exists.mp hsome with ⟨v, hv⟩
    refine ⟨p, hp, ?_, rfl⟩
    simp [hv]
  · rintro ⟨p, hp, hlab, rfl⟩
    exact ⟨p, ⟨hp, by rw [hlab]; rfl⟩, rfl⟩

/-- Every row of df_stats carries an identifier from the country layer
(lines 267-268). -/
theorem label_mem_of_mem_df_stats_make {gdf_iso3 : List String}
    {stats_list : List ZonalStat} {r : StatRow}
    (h : r ∈ df_stats_make gdf_iso3 stats_list) :
    r.iso3_r250_label ∈ gdf_iso3 := by
  induction gdf_iso3 generalizing stats_list with
  | nil => simp [df_stats_make] at h
  | cons k ks ih =>
    cases stats_list with
    | nil => simp [df_stats_make] at h
    | cons s ss =>
      unfold df_stats_make at h
      rw [List.zipWith_cons_cons] at h
      rcases List.mem_cons.mp h with h | h
      · rw [h]
        exact List.mem_cons_self _ _
      · exact List.mem_cons_of_mem _ (ih h)

/-- Full decomposition of a row of the final table: it pairs a country
identifier of the vector layer with a price row of the CSV, its area is
the aggregated pixel sum times the pixel area, its value is area times
rate, and its value is not NaN. -/
theorem mem_rows_decomp {gdf_iso3 : List String} {stats_list : List ZonalStat}
    {price_rows : List PriceRow} {pixel_size : ℚ × ℚ} {r : MergedRow}
    (hr : r ∈ area_by_country_table gdf_iso3 stats_list price_rows pixel_size) :
    ∃ p ∈ price_rows,
      p.iso3_r250_label = some r.iso3_r250_label ∧
      r.iso3_r250_label ∈ gdf_iso3 ∧
      r.value_per_hectare = to_numeric_coerce (get_col p.years price_year_column) ∧
      r.forest_area_ha =
        (country_pixel_sum (df_stats_make gdf_iso3 stats_list) r.iso3_r250_label : ℚ)
          * pixel_area_ha pixel_size ∧
      r.ntfp = Option.map (fun v => r.forest_area_ha * v) r.value_per_hectare ∧
      r.ntfp.isSome = true := by
  unfold area_by_country_table df_filtered at hr
  rw [List.mem_filter] at hr
  obtain ⟨hmem, hsome⟩ := hr
  rcases mem_valued_iff.mp hmem with ⟨a, ha, p, hp, hlab, rfl⟩
  rcases mem_with_area_iff.mp ha with ⟨g, hg, rfl⟩
  rcases mem_df_stats_agg_iff.mp hg with ⟨k, hk, rfl⟩
  rcases mem_df_price_clean_iff.mp hp with ⟨q, hq, hql, rfl⟩
  dsimp only [mk_valued] at hlab hsome ⊢
  have hkg : k ∈ gdf_iso3 := by
    rcases List.mem_map.mp (List.mem_dedup.mp hk) with ⟨sr, hsr, hsrk⟩
    exact hsrk ▸ label_mem_of_mem_df_stats_make hsr
  refine ⟨q, hq, ?_, hkg, rfl, rfl, rfl, hsome⟩
  rw [hql, hlab]

/-! ## Claim theorems -/

/-- C1: for every input pixel value v, the forest-mask operation outputs 1
if 50 <= v <= 90 and 0 otherwise (v=49 and v=91 map to 0, v=50 and v=90
map to 1); the output raster nodata value is 0; a nodata input pixel
(value 0 under the pipeline convention) propagates as 0; and the block
operation is the pixel rule applied pointwise. -/
theorem c1_forest_mask_pixel_rule :
    (∀ v : Int, (forest_mask_op v = 1 ↔ (50 ≤ v ∧ v ≤ 90)) ∧
      (forest_mask_op v = 0 ↔ ¬(50 ≤ v ∧ v ≤ 90))) ∧
    forest_mask_op 49 = 0 ∧ forest_mask_op 50 = 1 ∧
    forest_mask_op 90 = 1 ∧ forest_mask_op 91 = 0 ∧
    create_forest_mask_nodata = 0 ∧
    forest_mask_op lulc_default_nodata = 0 ∧
    (∀ block : List Int, forest_mask_block block = block.map forest_mask_op) := by
  constructor
  · intro v
    constructor
    · unfold forest_mask_op
      split <;> simp_all
    · unfold forest_mask_op
      split <;> simp_all
  · exact ⟨by decide, by decide, by decide, by decide, rfl, by decide,
      fun _ => rfl⟩

/-- Witness for C1: the rule evaluated at the concrete value 60. -/
theorem c1_witness : forest_mask_op 60 = 1 :=
  ((c1_forest_mask_pixel_rule.1 60).1).mpr (by decide)

/-- C2: every row of a successful area_by_country output satisfies
forest_area_ha = pixel_count * abs(pixel_width * pixel_height) / 10000,
where pixel_count is the aggregated zonal sum of that country over the
per-polygon statistics, and ntfp = forest_area_ha * value_per_hectare
(NaN-propagating). -/
theorem c2_valuation_formula (gdf_columns gdf_iso3 : List String)
    (stats_list : List ZonalStat) (price_columns : List String)
    (price_rows : List PriceRow) (pixel_size : ℚ × ℚ) (t : FinalTable)
    (h : area_by_country gdf_columns gdf_iso3 stats_list price_columns
        price_rows pixel_size = Except.ok t) :
    ∀ r ∈ t.rows,
      r.forest_area_ha =
        (country_pixel_sum (df_stats_make gdf_iso3 stats_list) r.iso3_r250_label : ℚ)
          * (|pixel_size.1 * pixel_size.2| / 10000) ∧
      r.ntfp = Option.map (fun v => r.forest_area_ha * v) r.value_per_hectare := by
  intro r hr
  rw [(area_by_country_ok_parts h).2] at hr
  rcases mem_rows_decomp hr with ⟨p, hp, hlab, hmem, hvph, harea, hntfp, hsome⟩
  exact ⟨by rw [harea, pixel_area_ha], hntfp⟩

/-- Witness for C2: the formula holds on the USA row of the sample run
(250 aggregated pixels, 9 ha per pixel, 1000 per ha). -/
theorem c2_witness :
    area_by_country sample_gdf_columns sample_gdf_iso3 sample_stats
      sample_price_columns sample_price_rows sample_pixel_size
      = Except.ok sample_table ∧
    (sample_usa_row.forest_area_ha =
      (country_pixel_sum (df_stats_make sample_gdf_iso3 sample_stats)
          sample_usa_row.iso3_r250_label : ℚ)
        * (|sample_pixel_size.1 * sample_pixel_size.2| / 10000) ∧
      sample_usa_row.ntfp =
        Option.map (fun v => sample_usa_row.forest_area_ha * v)
          sample_usa_row.value_per_hectare) :=
  ⟨sample_run_eval,
   c2_valuation_formula _ _ _ _ _ _ _ sample_run_eval sample_usa_row
     (by simp [sample_table])⟩

/-- C3: the aggregation step produces exactly one row per unique country
identifier — its identifiers are duplicate-free and are exactly the
identifiers of the input rows — each aggregated sum is the total of the
per-polygon sums for that identifier, and two features of one country
with sums 100 and 150 aggregate to a single row with sum 250. -/
theorem c3_aggregate_one_row_per_iso3 :
    (∀ rows : List StatRow,
      ((df_stats_agg rows).map (fun g => g.iso3_r250_label)).Nodup ∧
      (∀ k, k ∈ (df_stats_agg rows).map (fun g => g.iso3_r250_label) ↔
        k ∈ rows.map (fun r => r.iso3_r250_label)) ∧
      (∀ g ∈ df_stats_agg rows,
        g.sum_agg = country_pixel_sum rows g.iso3_r250_label)) ∧
    df_stats_agg
        [{ iso3_r250_label := "AAA", zsum := some 100, zcount := 120 },
         { iso3_r250_label := "AAA", zsum := some 150, zcount := 180 }]
      = [{ iso3_r250_label := "AAA", sum_agg := 250, count_agg := 300 }] := by
  constructor
  · intro rows
    refine ⟨?_, ?_, ?_⟩
    · unfold df_stats_agg
      rw [List.map_map]
      have : ((fun g : AggRow => g.iso3_r250_label) ∘ fun k =>
          ({ iso3_r250_label := k, sum_agg := country_pixel_sum rows k,
             count_agg := country_count_sum rows k } : AggRow)) = fun k => k := rfl
      rw [this, List.map_id']
      exact List.nodup_dedup _
    · intro k
      unfold df_stats_agg
      rw [List.map_map]
      have : ((fun g : AggRow => g.iso3_r250_label) ∘ fun k =>
          ({ iso3_r250_label := k, sum_agg := country_pixel_sum rows k,
             count_agg := country_count_sum rows k } : AggRow)) = fun k => k := rfl
      rw [this, List.map_id']
      exact List.mem_dedup
    · intro g hg
      rcases mem_df_stats_agg_iff.mp hg with ⟨k, hk, rfl⟩
      rfl
  · decide

/-- Witness for C3: the general part instantiated on the concrete
two-feature input. -/
theorem c3_witness :
    (({ iso3_r250_label := "AAA", sum_agg := 250, count_agg := 300 } : AggRow).sum_agg
      = country_pixel_sum
          [{ iso3_r250_label := "AAA", zsum := some 100, zcount := 120 },
           { iso3_r250_label := "AAA", zsum := some 150, zcount := 180 }] "AAA") :=
  (c3_aggregate_one_row_per_iso3.1
    [{ iso3_r250_label := "AAA", zsum := some 100, zcount := 120 },
     { iso3_r250_label := "AAA", zsum := some 150, zcount := 180 }]).2.2
    _ (by rw [c3_aggregate_one_row_per_iso3.2]; exact List.mem_cons_self _ _)

/-- C4: the join is an inner join on the country identifier — every output
row pairs an identifier of the vector layer with a price row of the value
table, an identifier absent from either side yields no output row, and a
price is always taken verbatim from the value table, never defaulted: a
country all of whose price entries are non-numeric yields no output row
(rather than one with price 0). -/
theorem c4_inner_join_semantics (gdf_columns gdf_iso3 : List String)
    (stats_list : List ZonalStat) (price_columns : List String)
    (price_rows : List PriceRow) (pixel_size : ℚ × ℚ) (t : FinalTable)
    (h : area_by_country gdf_columns gdf_iso3 stats_list price_columns
        price_rows pixel_size = Except.ok t) :
    (∀ r ∈ t.rows, r.iso3_r250_label ∈ gdf_iso3 ∧
      ∃ p ∈ price_rows, p.iso3_r250_label = some r.iso3_r250_label ∧
        r.value_per_hectare = to_numeric_coerce (get_col p.years price_year_column)) ∧
    (∀ k, k ∉ gdf_iso3 → ∀ r ∈ t.rows, r.iso3_r250_label ≠ k) ∧
    (∀ k, (∀ p ∈ price_rows, p.iso3_r250_label ≠ some k) →
      ∀ r ∈ t.rows, r.iso3_r250_label ≠ k) ∧
    (∀ k, (∀ p ∈ price_rows, p.iso3_r250_label = some k →
        to_numeric_coerce (get_col p.years price_year_column) = none) →
      ∀ r ∈ t.rows, r.iso3_r250_label ≠ k) := by
  have hrows := (area_by_country_ok_parts h).2
  refine ⟨?_, ?_, ?_, ?_⟩
  · intro r hr
    rw [hrows] at hr
    rcases mem_rows_decomp hr with ⟨p, hp, hlab, hmem, hvph, _, _, _⟩
    exact ⟨hmem, p, hp, hlab, hvph⟩
  · intro k hk r hr hrk
    rw [hrows] at hr
    rcases mem_rows_decomp hr with ⟨p, hp, hlab, hmem, _⟩
    exact hk (hrk ▸ hmem)
  · intro k hnone r hr hrk
    rw [hrows] at hr
    rcases mem_rows_decomp hr with ⟨p, hp, hlab, _⟩
    exact hnone p hp (by rw [hlab, hrk])
  · intro k hcoerce r hr hrk
    rw [hrows] at hr
    rcases mem_rows_decomp hr with ⟨p, hp, hlab, _, hvph, _, hntfp, hsome⟩
    have hv : r.value_per_hectare = none := by
      rw [hvph]
      exact hcoerce p hp (by rw [hlab, hrk])
    rw [hntfp, hv] at hsome
    simp at hsome

/-- Witness for C4: on the sample run, the USA row pairs with a price row
of the value table, and BRA — present in the vector layer only — is
absent from the output. -/
theorem c4_witness :
    area_by_country sample_gdf_columns sample_gdf_iso3 sample_stats
      sample_price_columns sample_price_rows sample_pixel_size
      = Except.ok sample_table ∧
    (sample_usa_row.iso3_r250_label ∈ sample_gdf_iso3 ∧
      ∃ p ∈ sample_price_rows,
        p.iso3_r250_label = some sample_usa_row.iso3_r250_label ∧
        sample_usa_row.value_per_hectare
          = to_numeric_coerce (get_col p.years price_year_column)) ∧
    sample_mex_row.iso3_r250_label ≠ "BRA" :=
  ⟨sample_run_eval,
   (c4_inner_join_semantics _ _ _ _ _ _ _ sample_run_eval).1 sample_usa_row
     (by simp [sample_table]),
   (c4_inner_join_semantics _ _ _ _ _ _ _ sample_run_eval).2.2.1 ("BRA")
     (by decide) sample_mex_row (by simp [sample_table])⟩

/-- C5: the final filter drops exactly the rows whose computed ntfp is
NaN: every output row has a non-NaN ntfp, a merged row with NaN ntfp is
not in the output, and a merged row whose ntfp is present — in particular
exactly 0 — is in the output. -/
theorem c5_nan_dropped_zero_retained (gdf_columns gdf_iso3 : List String)
    (stats_list : List ZonalStat) (price_columns : List String)
    (price_rows : List PriceRow) (pixel_size : ℚ × ℚ) (t : FinalTable)
    (h : area_by_country gdf_columns gdf_iso3 stats_list price_columns
        price_rows pixel_size = Except.ok t) :
    (∀ r ∈ t.rows, r.ntfp.isSome = true) ∧
    (∀ r, r ∈ with_ntfp (df_merged
        (with_area pixel_size (df_stats_agg (df_stats_make gdf_iso3 stats_list)))
        (df_price_clean price_rows)) →
      (r.ntfp = none → r ∉ t.rows) ∧
      (r.ntfp.isSome = true → r ∈ t.rows) ∧
      (r.ntfp = some 0 → r ∈ t.rows)) := by
  have hrows := (area_by_country_ok_parts h).2
  constructor
  · intro r hr
    rw [hrows] at hr
    unfold area_by_country_table df_filtered at hr
    exact (List.mem_filter.mp hr).2
  · intro r hmem
    refine ⟨?_, ?_, ?_⟩
    · intro hnone hr
      rw [hrows] at hr
      unfold area_by_country_table df_filtered at hr
      have := (List.mem_filter.mp hr).2
      rw [hnone] at this
      simp at this
    · intro hsome
      rw [hrows]
      unfold area_by_country_table df_filtered
      exact List.mem_filter.mpr ⟨hmem, hsome⟩
    · intro hzero
      rw [hrows]
      unfold area_by_country_table df_filtered
      exact List.mem_filter.mpr ⟨hmem, by rw [hzero]; rfl⟩

/-- Witness for C5: on the sample run, the CAN merged row (NaN ntfp) is
dropped and the MEX merged row (ntfp exactly 0) is retained. -/
theorem c5_witness :
    area_by_country sample_gdf_columns sample_gdf_iso3 sample_stats
      sample_price_columns sample_price_rows sample_pixel_size
      = Except.ok sample_table ∧
    sample_can_row.ntfp = none ∧ sample_can_row ∉ sample_table.rows ∧
    sample_mex_row.ntfp = some 0 ∧ sample_mex_row ∈ sample_table.rows :=
  ⟨sample_run_eval, rfl,
   ((c5_nan_dropped_zero_retained _ _ _ _ _ _ _ sample_run_eval).2 sample_can_row
     (by show sample_can_row ∈ sample_valued_rows
         rw [sample_valued_eval]
         simp)).1 rfl,
   rfl,
   ((c5_nan_dropped_zero_retained _ _ _ _ _ _ _ sample_run_eval).2 sample_mex_row
     (by show sample_mex_row ∈ sample_valued_rows
         rw [sample_valued_eval]
         simp)).2.2 rfl⟩

/-- C6: every pipeline stage function, called when its output path already
exists, returns the filesystem unchanged — nothing is created, modified
or deleted — and logs that the output exists. -/
theorem c6_skip_when_output_exists (fs : List String) (in1 in2 out : String)
    (dist : ℚ) (buffer_paths : List String) (gdf_columns gdf_iso3 : List String)
    (stats_list : List ZonalStat) (price_columns : List String)
    (price_rows : List PriceRow) (pixel_size : ℚ × ℚ)
    (h : out ∈ fs) :
    create_forest_mask_io fs in1 out
      = (fs, ["Forest mask already exists at " ++ out]) ∧
    reproject_raster_io fs in1 out
      = (fs, ["Reprojected raster already exists at " ++ out]) ∧
    reproject_vector_io fs in1 out
      = (fs, ["Reprojected vector already exists at " ++ out]) ∧
    buffer_vector_io fs in1 out dist
      = (fs, ["Buffered and dissolved vector already exists at " ++ out]) ∧
    union_buffers_io fs buffer_paths out
      = (fs, ["Union of buffers already exists at " ++ out]) ∧
    mask_raster_by_polygon_io fs in1 in2 out
      = (fs, ["Masked raster already exists at " ++ out]) ∧
    area_by_country_io fs out gdf_columns gdf_iso3 stats_list price_columns
        price_rows pixel_size
      = (fs, ["Output already exists: " ++ out]) := by
  unfold create_forest_mask_io reproject_raster_io reproject_vector_io
    buffer_vector_io union_buffers_io mask_raster_by_polygon_io area_by_country_io
  simp only [if_pos h]
  exact ⟨trivial, trivial, trivial, trivial, trivial, trivial, trivial⟩

/-- Witness for C6: all seven stages skip on a filesystem already holding
the output path. -/
theorem c6_witness :
    create_forest_mask_io ["out.tif"] "in.tif" "out.tif"
      = (["out.tif"], ["Forest mask already exists at " ++ "out.tif"]) ∧
    reproject_raster_io ["out.tif"] "in.tif" "out.tif"
      = (["out.tif"], ["Reprojected raster already exists at " ++ "out.tif"]) ∧
    reproject_vector_io ["out.tif"] "in.tif" "out.tif"
      = (["out.tif"], ["Reprojected vector already exists at " ++ "out.tif"]) ∧
    buffer_vector_io ["out.tif"] "in.tif" "out.tif" 10000
      = (["out.tif"], ["Buffered and dissolved vector already exists at " ++ "out.tif"]) ∧
    union_buffers_io ["out.tif"] [] "out.tif"
      = (["out.tif"], ["Union of buffers already exists at " ++ "out.tif"]) ∧
    mask_raster_by_polygon_io ["out.tif"] "in.tif" "in2.gpkg" "out.tif"
      = (["out.tif"], ["Masked raster already exists at " ++ "out.tif"]) ∧
    area_by_country_io ["out.tif"] "out.tif" [] [] [] [] [] (300, -300)
      = (["out.tif"], ["Output already exists: " ++ "out.tif"]) :=
  c6_skip_when_output_exists ["out.tif"] "in.tif" "in2.gpkg" "out.tif" 10000
    [] [] [] [] [] [] (300, -300) (by decide)

/-- C7: a join column absent from the vector layer or the value table is a
fatal error whose payload names the offending input and carries the
columns actually available there, and no output is written (the
filesystem is unchanged). The vector layer is checked first; the CSV
error arises when the vector layer has the column and the CSV does not. -/
theorem c7_missing_join_column_fatal (gdf_columns gdf_iso3 : List String)
    (stats_list : List ZonalStat) (price_columns : List String)
    (price_rows : List PriceRow) (pixel_size : ℚ × ℚ)
    (fs : List String) (out_csv_path : String)
    (hg : iso3_col ∉ gdf_columns) :
    area_by_country gdf_columns gdf_iso3 stats_list price_columns price_rows
        pixel_size
      = Except.error (StageError.missingColumn ("Vector") iso3_col gdf_columns) ∧
    (area_by_country_io fs out_csv_path gdf_columns gdf_iso3 stats_list
        price_columns price_rows pixel_size).1 = fs ∧
    (∀ gcols2, iso3_col ∈ gcols2 → iso3_col ∉ price_columns →
      area_by_country gcols2 gdf_iso3 stats_list price_columns price_rows
          pixel_size
        = Except.error (StageError.missingColumn ("CSV") iso3_col price_columns) ∧
      (area_by_country_io fs out_csv_path gcols2 gdf_iso3 stats_list
          price_columns price_rows pixel_size).1 = fs) := by
  have herr : area_by_country gdf_columns gdf_iso3 stats_list price_columns
      price_rows pixel_size
      = Except.error (StageError.missingColumn ("Vector") iso3_col gdf_columns) := by
    unfold area_by_country
    rw [if_neg hg]
  refine ⟨herr, ?_, ?_⟩
  · unfold area_by_country_io
    by_cases hout : out_csv_path ∈ fs
    · rw [if_pos hout]
    · rw [if_neg hout, herr]
  · intro gcols2 h1 h2
    have herr2 : area_by_country gcols2 gdf_iso3 stats_list price_columns
        price_rows pixel_size
        = Except.error (StageError.missingColumn ("CSV") iso3_col price_columns) := by
      unfold area_by_country
      rw [if_pos h1, if_neg h2]
    refine ⟨herr2, ?_⟩
    unfold area_by_country_io
    by_cases hout : out_csv_path ∈ fs
    · rw [if_pos hout]
    · rw [if_neg hout, herr2]

/-- Witness for C7: a vector layer without the join column produces the
Vector error carrying its actual columns, and the filesystem is
unchanged. -/
theorem c7_witness :
    area_by_country ["geometry"] [] [] ["iso3_r250_label"] [] (300, -300)
      = Except.error (StageError.missingColumn ("Vector") iso3_col ["geometry"]) ∧
    (area_by_country_io ["x.csv"] "out.csv" ["geometry"] [] []
        ["iso3_r250_label"] [] (300, -300)).1 = ["x.csv"] :=
  ⟨(c7_missing_join_column_fatal ["geometry"] [] [] ["iso3_r250_label"] []
      (300, -300) ["x.csv"] "out.csv" (by decide)).1,
   (c7_missing_join_column_fatal ["geometry"] [] [] ["iso3_r250_label"] []
      (300, -300) ["x.csv"] "out.csv" (by decide)).2.1⟩

/-- C8 counterexample: on a concrete successful run the emitted header is
the code column list — it does not contain a column named ntfp_value and
differs from the column set the spec claims. -/
theorem c8_counterexample :
    area_by_country sample_gdf_columns sample_gdf_iso3 sample_stats
      sample_price_columns sample_price_rows sample_pixel_size
      = Except.ok sample_table ∧
    sample_table.header ≠ spec_claimed_columns ∧
    "ntfp_value" ∉ sample_table.header ∧
    "ntfp" ∈ sample_table.header :=
  ⟨sample_run_eval, by decide, by decide, by decide⟩

/-- C8 amended: the final table has exactly six columns — the identifier,
label and display-name columns iso3_r250_id, iso3_r250_label and
iso3_r250_name, then forest_area_ha, value_per_hectare, and the computed
value column, which is named ntfp (not ntfp_value). -/
theorem c8_final_columns (gdf_columns gdf_iso3 : List String)
    (stats_list : List ZonalStat) (price_columns : List String)
    (price_rows : List PriceRow) (pixel_size : ℚ × ℚ) (t : FinalTable)
    (h : area_by_country gdf_columns gdf_iso3 stats_list price_columns
        price_rows pixel_size = Except.ok t) :
    t.header = ["iso3_r250_id", "iso3_r250_label", "iso3_r250_name",
      "forest_area_ha", "value_per_hectare", "ntfp"] ∧
    t.header.length = 6 ∧ "ntfp" ∈ t.header ∧ "ntfp_value" ∉ t.header := by
  have hh := (area_by_country_ok_parts h).1
  rw [hh]
  exact ⟨rfl, rfl, by decide, by decide⟩

/-- Witness for C8: the amended header property on the sample run. -/
theorem c8_witness :
    area_by_country sample_gdf_columns sample_gdf_iso3 sample_stats
      sample_price_columns sample_price_rows sample_pixel_size
      = Except.ok sample_table ∧
    sample_table.header = ["iso3_r250_id", "iso3_r250_label", "iso3_r250_name",
      "forest_area_ha", "value_per_hectare", "ntfp"] :=
  ⟨sample_run_eval,
   (c8_final_columns _ _ _ _ _ _ _ sample_run_eval).1⟩

/-- C9 (code bug): executing run_ntfp.py schedules no stage at all — the
main guard at line 23 compares __name__ with the string main, which is
never the module name of an executed script — and the task tree refers to
two task functions (task_preprocess_forest_data, task_calculate_ntfp_value)
that ntfp_tasks.py does not define, so even a corrected guard would fail
to resolve them. -/
theorem c9_pipeline_never_runs :
    run_ntfp_scheduled_tasks python_executed_module_name = [] ∧
    python_executed_module_name ≠ run_ntfp_main_guard ∧
    "task_preprocess_forest_data" ∈ build_task_tree_refs ∧
    "task_preprocess_forest_data" ∉ ntfp_tasks_defined ∧
    "task_calculate_ntfp_value" ∈ build_task_tree_refs ∧
    "task_calculate_ntfp_value" ∉ ntfp_tasks_defined := by
  decide

/-- C10: the valuation rate is read from the year column 2019 (fixed),
after dropping value rows with a missing country identifier; the cleaned
rows are exactly the images of the rows with an identifier; and a
non-numeric entry is coerced to NaN by the total function
to_numeric_coerce rather than raising. -/
theorem c10_price_year_fixed (price_rows : List PriceRow) :
    price_year_column = "2019" ∧
    (df_price_clean price_rows).length
      = (price_rows.filter (fun p => p.iso3_r250_label.isSome)).length ∧
    (∀ c ∈ df_price_clean price_rows, ∃ p ∈ price_rows,
      p.iso3_r250_label = some c.iso3_r250_label ∧
      c.iso3_r250_id = p.iso3_r250_id ∧ c.iso3_r250_name = p.iso3_r250_name ∧
      c.value_per_hectare = to_numeric_coerce (get_col p.years price_year_column)) ∧
    (∀ p ∈ price_rows, p.iso3_r250_label.isSome = true →
      ({ iso3_r250_id := p.iso3_r250_id
         iso3_r250_label := p.iso3_r250_label.getD ""
         iso3_r250_name := p.iso3_r250_name
         value_per_hectare :=
           to_numeric_coerce (get_col p.years price_year_column) } : CleanPriceRow)
        ∈ df_price_clean price_rows) ∧
    (∀ s, to_numeric_coerce (Cell.str s) = none) ∧
    to_numeric_coerce Cell.na = none ∧
    (∀ q, to_numeric_coerce (Cell.num q) = some q) := by
  refine ⟨rfl, ?_, ?_, ?_, fun s => rfl, rfl, fun q => rfl⟩
  · unfold df_price_clean
    rw [List.length_map]
  · intro c hc
    rcases mem_df_price_clean_iff.mp hc with ⟨p, hp, hlab, rfl⟩
    exact ⟨p, hp, hlab, rfl, rfl, rfl⟩
  · intro p hp hsome
    unfold df_price_clean
    exact List.mem_map_of_mem _ (List.mem_filter.mpr ⟨hp, hsome⟩)

/-- Witness for C10: the cleaned USA row of the sample value table traces
back to a source row whose 2019 cell provides its rate. -/
theorem c10_witness :
    price_year_column = "2019" ∧
    (∃ p ∈ sample_price_rows,
      p.iso3_r250_label = some sample_clean_usa.iso3_r250_label ∧
      sample_clean_usa.iso3_r250_id = p.iso3_r250_id ∧
      sample_clean_usa.iso3_r250_name = p.iso3_r250_name ∧
      sample_clean_usa.value_per_hectare
        = to_numeric_coerce (get_col p.years price_year_column)) :=
  ⟨(c10_price_year_fixed sample_price_rows).1,
   (c10_price_year_fixed sample_price_rows).2.2.1 sample_clean_usa
     (by simp [df_price_clean, sample_price_rows, sample_clean_usa, get_col,
       to_numeric_coerce, price_year_column])⟩

end GeoNtfp
